import Mathlib

/-!
Shallow embedding of `examples/tablet.c` (raw-gadget Wacom tablet emulator).

Machine integers are modelled as `Nat` with explicit `% 2^w` where overflow
can matter.  Side-effecting kernel calls (ioctl wrappers) are external
collaborators; the embedding instruments them by counting their invocations
in an explicit state record.  `assert` failures and `exit(EXIT_FAILURE)` are
modelled as explicit outcome constructors.
-/

namespace Tablet

/-! ### Constants from linux/usb/ch9.h and linux/hid.h used by tablet.c -/

def USB_DIR_IN : Nat := 0x80
def USB_TYPE_MASK : Nat := 0x60
def USB_TYPE_STANDARD : Nat := 0x00
def USB_TYPE_CLASS : Nat := 0x20
def USB_TYPE_VENDOR : Nat := 0x40

def USB_REQ_GET_DESCRIPTOR : Nat := 0x06
def USB_REQ_SET_CONFIGURATION : Nat := 0x09
def USB_REQ_GET_INTERFACE : Nat := 0x0a

def USB_DT_DEVICE : Nat := 0x01
def USB_DT_CONFIG : Nat := 0x02
def USB_DT_STRING : Nat := 0x03
def USB_DT_DEVICE_QUALIFIER : Nat := 0x06
def HID_DT_HID : Nat := 0x21
def HID_DT_REPORT : Nat := 0x22

def HID_REQ_SET_REPORT : Nat := 0x09
def HID_REQ_SET_IDLE : Nat := 0x0a
def HID_REQ_SET_PROTOCOL : Nat := 0x0b

def USB_DT_DEVICE_SIZE : Nat := 18
def USB_DT_CONFIG_SIZE : Nat := 9
def USB_DT_INTERFACE_SIZE : Nat := 9
def USB_DT_ENDPOINT_SIZE : Nat := 7

def USB_ENDPOINT_NUMBER_MASK : Nat := 0x0f
def USB_ENDPOINT_XFER_BULK : Nat := 2
def USB_ENDPOINT_XFER_INT : Nat := 3

def USB_CLASS_HID : Nat := 3
def USB_CONFIG_ATT_ONE : Nat := 0x80
def USB_CONFIG_ATT_SELFPOWER : Nat := 0x40

def USB_RAW_EP_ADDR_ANY : Nat := 0xff

/-! ### Constants defined in tablet.c -/

def BCD_USB : Nat := 0x0200
def USB_VENDOR : Nat := 0x056a
def USB_PRODUCT : Nat := 0xffab

def LANG_EN_US : Nat := 0x0409
def STRING_ID_MANUFACTURER : Nat := 1
def STRING_ID_PRODUCT : Nat := 2
def STRING_ID_SERIAL : Nat := 3

def EP_MAX_PACKET_CONTROL : Nat := 64
def EP_MAX_PACKET_INT : Nat := 8
def EP_NUM_INT_IN : Nat := 0x0

def EP0_MAX_DATA : Nat := 256

/-! ### Byte serialization helpers (little-endian, as memcpy of packed structs) -/

def u8 (n : Nat) : List Nat := [n % 256]

def le16 (n : Nat) : List Nat := [n % 256, n / 256 % 256]

/-! ### String table: UTF-16 code units of the `char16_t` arrays, including
the terminating NUL, exactly as `sizeof` counts them in the C source. -/

-- const uint16_t languages[] = { LANG_EN_US };
def languages : List Nat := [LANG_EN_US]

-- u"Wacom Co., Ltd."  (15 characters + NUL terminator)
def manufacturer_en_us : List Nat :=
  [0x57, 0x61, 0x63, 0x6f, 0x6d, 0x20, 0x43, 0x6f,
   0x2e, 0x2c, 0x20, 0x4c, 0x74, 0x64, 0x2e, 0x00]

-- u"Software Tablet"  (15 characters + NUL terminator)
def product_en_us : List Nat :=
  [0x53, 0x6f, 0x66, 0x74, 0x77, 0x61, 0x72, 0x65,
   0x20, 0x54, 0x61, 0x62, 0x6c, 0x65, 0x74, 0x00]

-- u"19830712"  (8 characters + NUL terminator)
def serial_en_us : List Nat :=
  [0x31, 0x39, 0x38, 0x33, 0x30, 0x37, 0x31, 0x32, 0x00]

/-- Bytes of a `uint16_t`/`char16_t` array as memcpy sees them (LE). -/
def u16ArrayBytes (l : List Nat) : List Nat := l.flatMap le16

/-! ### Descriptor structures (packed structs from ch9.h / hid.h) -/

structure usb_device_descriptor where
  bLength : Nat
  bDescriptorType : Nat
  bcdUSB : Nat
  bDeviceClass : Nat
  bDeviceSubClass : Nat
  bDeviceProtocol : Nat
  bMaxPacketSize0 : Nat
  idVendor : Nat
  idProduct : Nat
  bcdDevice : Nat
  iManufacturer : Nat
  iProduct : Nat
  iSerialNumber : Nat
  bNumConfigurations : Nat
deriving DecidableEq, Repr

def usb_device : usb_device_descriptor where
  bLength := USB_DT_DEVICE_SIZE
  bDescriptorType := USB_DT_DEVICE
  bcdUSB := BCD_USB
  bDeviceClass := 0
  bDeviceSubClass := 0
  bDeviceProtocol := 0
  bMaxPacketSize0 := EP_MAX_PACKET_CONTROL
  idVendor := USB_VENDOR
  idProduct := USB_PRODUCT
  bcdDevice := 0
  iManufacturer := STRING_ID_MANUFACTURER
  iProduct := STRING_ID_PRODUCT
  iSerialNumber := STRING_ID_SERIAL
  bNumConfigurations := 1

def deviceBytes (d : usb_device_descriptor) : List Nat :=
  u8 d.bLength ++ u8 d.bDescriptorType ++ le16 d.bcdUSB ++
  u8 d.bDeviceClass ++ u8 d.bDeviceSubClass ++ u8 d.bDeviceProtocol ++
  u8 d.bMaxPacketSize0 ++ le16 d.idVendor ++ le16 d.idProduct ++
  le16 d.bcdDevice ++ u8 d.iManufacturer ++ u8 d.iProduct ++
  u8 d.iSerialNumber ++ u8 d.bNumConfigurations

structure usb_qualifier_descriptor where
  bLength : Nat
  bDescriptorType : Nat
  bcdUSB : Nat
  bDeviceClass : Nat
  bDeviceSubClass : Nat
  bDeviceProtocol : Nat
  bMaxPacketSize0 : Nat
  bNumConfigurations : Nat
  bRESERVED : Nat
deriving DecidableEq, Repr

def usb_qualifier : usb_qualifier_descriptor where
  bLength := 10  -- sizeof(struct usb_qualifier_descriptor)
  bDescriptorType := USB_DT_DEVICE_QUALIFIER
  bcdUSB := BCD_USB
  bDeviceClass := 0
  bDeviceSubClass := 0
  bDeviceProtocol := 0
  bMaxPacketSize0 := EP_MAX_PACKET_CONTROL
  bNumConfigurations := 1
  bRESERVED := 0

def qualifierBytes (d : usb_qualifier_descriptor) : List Nat :=
  u8 d.bLength ++ u8 d.bDescriptorType ++ le16 d.bcdUSB ++
  u8 d.bDeviceClass ++ u8 d.bDeviceSubClass ++ u8 d.bDeviceProtocol ++
  u8 d.bMaxPacketSize0 ++ u8 d.bNumConfigurations ++ u8 d.bRESERVED

structure usb_config_descriptor where
  bLength : Nat
  bDescriptorType : Nat
  wTotalLength : Nat
  bNumInterfaces : Nat
  bConfigurationValue : Nat
  iConfiguration : Nat
  bmAttributes : Nat
  bMaxPower : Nat
deriving DecidableEq, Repr

def usb_config : usb_config_descriptor where
  bLength := USB_DT_CONFIG_SIZE
  bDescriptorType := USB_DT_CONFIG
  wTotalLength := 0  -- computed later
  bNumInterfaces := 1
  bConfigurationValue := 1
  iConfiguration := 0  -- STRING_ID_CONFIG
  bmAttributes := USB_CONFIG_ATT_ONE ||| USB_CONFIG_ATT_SELFPOWER
  bMaxPower := 0x32

def configBytes (d : usb_config_descriptor) : List Nat :=
  u8 d.bLength ++ u8 d.bDescriptorType ++ le16 d.wTotalLength ++
  u8 d.bNumInterfaces ++ u8 d.bConfigurationValue ++ u8 d.iConfiguration ++
  u8 d.bmAttributes ++ u8 d.bMaxPower

structure usb_interface_descriptor where
  bLength : Nat
  bDescriptorType : Nat
  bInterfaceNumber : Nat
  bAlternateSetting : Nat
  bNumEndpoints : Nat
  bInterfaceClassField : Nat
  bInterfaceSubClass : Nat
  bInterfaceProtocol : Nat
  iInterface : Nat
deriving DecidableEq, Repr

def usb_interface : usb_interface_descriptor where
  bLength := USB_DT_INTERFACE_SIZE
  bDescriptorType := 0x04  -- USB_DT_INTERFACE
  bInterfaceNumber := 0
  bAlternateSetting := 0
  bNumEndpoints := 1
  bInterfaceClassField := USB_CLASS_HID
  bInterfaceSubClass := 1
  bInterfaceProtocol := 1
  iInterface := 0  -- STRING_ID_INTERFACE

def interfaceBytes (d : usb_interface_descriptor) : List Nat :=
  u8 d.bLength ++ u8 d.bDescriptorType ++ u8 d.bInterfaceNumber ++
  u8 d.bAlternateSetting ++ u8 d.bNumEndpoints ++ u8 d.bInterfaceClassField ++
  u8 d.bInterfaceSubClass ++ u8 d.bInterfaceProtocol ++ u8 d.iInterface

structure usb_endpoint_descriptor where
  bLength : Nat
  bDescriptorType : Nat
  bEndpointAddress : Nat
  bmAttributes : Nat
  wMaxPacketSize : Nat
  bInterval : Nat
deriving DecidableEq, Repr

def usb_endpoint : usb_endpoint_descriptor where
  bLength := USB_DT_ENDPOINT_SIZE
  bDescriptorType := 0x05  -- USB_DT_ENDPOINT
  bEndpointAddress := USB_DIR_IN ||| EP_NUM_INT_IN
  bmAttributes := USB_ENDPOINT_XFER_INT
  wMaxPacketSize := EP_MAX_PACKET_INT
  bInterval := 5

-- memcpy(data, &usb_endpoint, USB_DT_ENDPOINT_SIZE) copies the first 7 bytes
-- of the struct (the audio fields are not part of USB_DT_ENDPOINT_SIZE).
def endpointBytes (d : usb_endpoint_descriptor) : List Nat :=
  u8 d.bLength ++ u8 d.bDescriptorType ++ u8 d.bEndpointAddress ++
  u8 d.bmAttributes ++ le16 d.wMaxPacketSize ++ u8 d.bInterval

/-- char usb_hid_report[]: the 81-byte HID report descriptor blob. -/
def usb_hid_report : List Nat :=
  [0x05, 0x0D, 0x09, 0x02, 0xA1, 0x01, 0x85, 0x06,
   0x09, 0x20, 0xA0, 0x09, 0x42, 0x09, 0x44, 0x09,
   0x45, 0x09, 0x3C, 0x08, 0x09, 0x32, 0x14, 0x25,
   0x01, 0x75, 0x01, 0x95, 0x06, 0x81, 0x02, 0x95,
   0x02, 0x81, 0x03, 0x05, 0x01, 0x09, 0x30, 0x26,
   0x80, 0x3E, 0x46, 0x80, 0x3E, 0x65, 0x11, 0x55,
   0x0D, 0x75, 0x10, 0x95, 0x01, 0x81, 0x02, 0x09,
   0x31, 0x26, 0x28, 0x23, 0x46, 0x28, 0x23, 0x81,
   0x02, 0x44, 0x64, 0x54, 0x05, 0x0D, 0x09, 0x30,
   0x26, 0xFF, 0x03, 0x75, 0x10, 0x81, 0x02, 0xC0,
   0xC0]

structure hid_descriptor where
  bLength : Nat
  bDescriptorType : Nat
  bcdHID : Nat
  bCountryCode : Nat
  bNumDescriptors : Nat
  descType : Nat           -- desc[0].bDescriptorType
  descLength : Nat         -- desc[0].wDescriptorLength
deriving DecidableEq, Repr

def usb_hid : hid_descriptor where
  bLength := 9
  bDescriptorType := HID_DT_HID
  bcdHID := 0x0110
  bCountryCode := 0
  bNumDescriptors := 1
  descType := HID_DT_REPORT
  descLength := usb_hid_report.length

def hidBytes (d : hid_descriptor) : List Nat :=
  u8 d.bLength ++ u8 d.bDescriptorType ++ le16 d.bcdHID ++
  u8 d.bCountryCode ++ u8 d.bNumDescriptors ++ u8 d.descType ++
  le16 d.descLength

/-! ### fill_string_descriptor (tablet.c lines 775-803) -/

/-- Outcome of `fill_string_descriptor`: the C function returns `true` after
writing the descriptor into `io` (bytes written, plus the value stored in
`io->inner.length`), returns `false` for an unknown id, or trips one of its
two `assert`s. -/
inductive FillResult where
  | filled (data : List Nat) (length : Nat)
  | unsupported
  | assertFailed
deriving DecidableEq, Repr

/-- Descriptor bytes written on the success path: `io->data[0] = len + 2`
(stored into a byte), `io->data[1] = USB_DT_STRING`, then `memcpy` of the
payload; `io->inner.length` re-reads `io->data[0]`. -/
def mkStringDescriptor (payload : List Nat) : FillResult :=
  .filled ((payload.length + 2) % 256 :: USB_DT_STRING :: payload)
          ((payload.length + 2) % 256)

def fill_string_descriptor (id : Nat) (lang : Nat) : FillResult :=
  if id = 0 ∧ lang = 0 then
    mkStringDescriptor (u16ArrayBytes languages)
  else if id = 0 then .assertFailed            -- assert(id > 0)
  else if lang ≠ LANG_EN_US then .assertFailed -- assert(lang == LANG_EN_US)
  else if id = STRING_ID_MANUFACTURER then
    mkStringDescriptor (u16ArrayBytes manufacturer_en_us)
  else if id = STRING_ID_PRODUCT then
    mkStringDescriptor (u16ArrayBytes product_en_us)
  else if id = STRING_ID_SERIAL then
    mkStringDescriptor (u16ArrayBytes serial_en_us)
  else .unsupported

/-! ### build_config (tablet.c lines 572-605) -/

/-- `build_config(data, length)`: concatenates config + interface + HID +
endpoint descriptors into the caller's buffer, asserting at each stage that
the remaining `length` suffices, and patches `wTotalLength` in the config
header with the running total.  `none` models a tripped `assert`; otherwise
the result is the assembled blob and the returned `total_length`.  The
endpoint descriptor is a parameter because the global `usb_endpoint` has its
address patched at connect time. -/
def build_config (ep : usb_endpoint_descriptor) (length : Nat) :
    Option (List Nat × Nat) :=
  if length < USB_DT_CONFIG_SIZE then none else
  if length - USB_DT_CONFIG_SIZE < USB_DT_INTERFACE_SIZE then none else
  if length - USB_DT_CONFIG_SIZE - USB_DT_INTERFACE_SIZE < 9 then none else
  if length - USB_DT_CONFIG_SIZE - USB_DT_INTERFACE_SIZE - 9
      < USB_DT_ENDPOINT_SIZE then none else
  let total_length :=
    USB_DT_CONFIG_SIZE + USB_DT_INTERFACE_SIZE + 9 + USB_DT_ENDPOINT_SIZE
  some (configBytes { usb_config with wTotalLength := total_length } ++
        interfaceBytes usb_interface ++ hidBytes usb_hid ++ endpointBytes ep,
        total_length)

/-! ### assign_ep_address (tablet.c lines 609-635) -/

def usb_endpoint_num (ep : usb_endpoint_descriptor) : Nat :=
  ep.bEndpointAddress &&& USB_ENDPOINT_NUMBER_MASK

def usb_endpoint_dir_in (ep : usb_endpoint_descriptor) : Bool :=
  ep.bEndpointAddress &&& 0x80 = USB_DIR_IN

def usb_endpoint_dir_out (ep : usb_endpoint_descriptor) : Bool :=
  ep.bEndpointAddress &&& 0x80 = 0

def usb_endpoint_type (ep : usb_endpoint_descriptor) : Nat :=
  ep.bmAttributes &&& 3  -- USB_ENDPOINT_XFERTYPE_MASK

structure usb_raw_ep_caps where
  type_control : Bool
  type_iso : Bool
  type_bulk : Bool
  type_int : Bool
  dir_in : Bool
  dir_out : Bool
deriving DecidableEq, Repr

structure usb_raw_ep_info where
  addr : Nat
  caps : usb_raw_ep_caps
deriving DecidableEq, Repr

/-- Result of one `assign_ep_address` call: `ret b ep c` is the C boolean
return together with the (possibly mutated) endpoint descriptor and the
(possibly advanced) static `addr` counter; `assertFailed` is the
`default: assert(false)` arm for control/isochronous endpoint types. -/
inductive AssignResult where
  | ret (b : Bool) (ep : usb_endpoint_descriptor) (counter : Nat)
  | assertFailed
deriving DecidableEq, Repr

/-- The body shared by the bulk and interrupt arms once the capability
checks have passed: any-address entries consume the static counter,
fixed-address entries OR in the controller-specified address. -/
def assignAddr (info : usb_raw_ep_info) (ep : usb_endpoint_descriptor)
    (counter : Nat) : AssignResult :=
  if info.addr = USB_RAW_EP_ADDR_ANY then
    .ret true { ep with bEndpointAddress := ep.bEndpointAddress ||| counter }
         (counter + 1)
  else
    .ret true { ep with bEndpointAddress := ep.bEndpointAddress ||| info.addr }
         counter

def assign_ep_address (info : usb_raw_ep_info) (ep : usb_endpoint_descriptor)
    (counter : Nat) : AssignResult :=
  if usb_endpoint_num ep ≠ 0 then
    .ret false ep counter  -- Already assigned.
  else if usb_endpoint_dir_in ep ∧ ¬info.caps.dir_in then
    .ret false ep counter
  else if usb_endpoint_dir_out ep ∧ ¬info.caps.dir_out then
    .ret false ep counter
  else if usb_endpoint_type ep = USB_ENDPOINT_XFER_BULK then
    if ¬info.caps.type_bulk then .ret false ep counter
    else assignAddr info ep counter
  else if usb_endpoint_type ep = USB_ENDPOINT_XFER_INT then
    if ¬info.caps.type_int then .ret false ep counter
    else assignAddr info ep counter
  else
    .assertFailed  -- default: assert(false)

/-! ### Control transfer dispatcher: ep0_request (tablet.c lines 805-886) -/

/-- The 8-byte SETUP packet (struct usb_ctrlrequest). -/
structure usb_ctrlrequest where
  bRequestType : Nat
  bRequest : Nat
  wValue : Nat
  wIndex : Nat
  wLength : Nat
deriving DecidableEq, Repr

/-- Process-global mutable state touched by the dispatcher, with
instrumentation counters for the side-effecting kernel calls:
`ep_int_in_thread` is the pthread handle tested by `if (!ep_int_in_thread)`
(0 until `pthread_create` stores a nonzero handle — modelled as 1);
`thread_creations` counts `pthread_create` calls; `ep_enable_calls` counts
`usb_raw_ep_enable` calls issued by SET_CONFIGURATION handling. -/
structure DevState where
  ep_int_in_thread : Nat
  thread_creations : Nat
  ep_enable_calls : Nat
  endpointDesc : usb_endpoint_descriptor
deriving DecidableEq, Repr

def initState : DevState where
  ep_int_in_thread := 0
  thread_creations := 0
  ep_enable_calls := 0
  endpointDesc := usb_endpoint

/-- Outcome of `ep0_request`: `reply data len` is the `return true` path
with the bytes written into `io->data` and the value of `io->inner.length`;
`stall` is the `return false` path (the event loop then stalls ep0 and
continues); `fatal` is `printf("fail: no response"); exit(EXIT_FAILURE)`;
`assertFailed` bubbles up a tripped assert. -/
inductive Outcome where
  | reply (data : List Nat) (length : Nat)
  | stall
  | fatal
  | assertFailed
deriving DecidableEq, Repr

def ep0_request (s : DevState) (ctrl : usb_ctrlrequest) : Outcome × DevState :=
  if ctrl.bRequestType &&& USB_TYPE_MASK = USB_TYPE_STANDARD then
    if ctrl.bRequest = USB_REQ_GET_DESCRIPTOR then
      if ctrl.wValue >>> 8 = USB_DT_DEVICE then
        (.reply (deviceBytes usb_device) (deviceBytes usb_device).length, s)
      else if ctrl.wValue >>> 8 = USB_DT_DEVICE_QUALIFIER then
        (.reply (qualifierBytes usb_qualifier)
                (qualifierBytes usb_qualifier).length, s)
      else if ctrl.wValue >>> 8 = USB_DT_CONFIG then
        match build_config s.endpointDesc EP0_MAX_DATA with
        | some (blob, total) => (.reply blob total, s)
        | none => (.assertFailed, s)
      else if ctrl.wValue >>> 8 = USB_DT_STRING then
        match fill_string_descriptor (ctrl.wValue &&& 0xff) ctrl.wIndex with
        | .filled data len => (.reply data len, s)
        | .unsupported => (.stall, s)
        | .assertFailed => (.assertFailed, s)
      else if ctrl.wValue >>> 8 = HID_DT_REPORT then
        (.reply usb_hid_report usb_hid_report.length, s)
      else
        (.fatal, s)
    else if ctrl.bRequest = USB_REQ_SET_CONFIGURATION then
      -- ep_int_in = usb_raw_ep_enable(fd, &usb_endpoint);
      -- usb_raw_vbus_draw(fd, usb_config.bMaxPower);
      -- usb_raw_configure(fd);
      (.reply [] 0, { s with ep_enable_calls := s.ep_enable_calls + 1 })
    else if ctrl.bRequest = USB_REQ_GET_INTERFACE then
      (.reply [usb_interface.bAlternateSetting] 1, s)
    else
      (.fatal, s)
  else if ctrl.bRequestType &&& USB_TYPE_MASK = USB_TYPE_CLASS then
    if ctrl.bRequest = HID_REQ_SET_REPORT then
      (.reply [] 1, s)
    else if ctrl.bRequest = HID_REQ_SET_IDLE then
      -- if (!ep_int_in_thread) pthread_create(&ep_int_in_thread, ...);
      if s.ep_int_in_thread = 0 then
        (.reply [] 0, { s with ep_int_in_thread := 1,
                               thread_creations := s.thread_creations + 1 })
      else
        (.reply [] 0, s)
    else if ctrl.bRequest = HID_REQ_SET_PROTOCOL then
      (.reply [] 0, s)
    else
      (.fatal, s)
  else if ctrl.bRequestType &&& USB_TYPE_MASK = USB_TYPE_VENDOR then
    (.fatal, s)  -- switch has only the default: fail arm
  else
    (.fatal, s)

/-! ### One iteration of the control-event handling in ep0_loop
(tablet.c lines 904-925) -/

/-- Observable result of handling one control event: a transfer of `n`
bytes (the loop continues), a stall of ep0 (the loop continues), or
process termination (`exit` / tripped assert inside the dispatcher). -/
inductive LoopStep where
  | transferred (n : Nat)
  | stalled
  | exited
  | assertStop
deriving DecidableEq, Repr

/-- `if (event.ctrl.wLength < io.inner.length) io.inner.length = event.ctrl.wLength;`
followed by a single ep0 write (IN) or read (OUT) of `io.inner.length` bytes. -/
def ep0_handle_control (s : DevState) (ctrl : usb_ctrlrequest) :
    LoopStep × DevState :=
  match ep0_request s ctrl with
  | (.reply _ len, s') =>
      (.transferred (if ctrl.wLength < len then ctrl.wLength else len), s')
  | (.stall, s') => (.stalled, s')
  | (.fatal, s') => (.exited, s')
  | (.assertFailed, s') => (.assertStop, s')

/-! ### Report generator motion state: step (tablet.c lines 713-741) -/

inductive motion_direction where
  | MOTION_RIGHT
  | MOTION_DOWN
  | MOTION_LEFT
  | MOTION_UP
deriving DecidableEq, Repr

open motion_direction

/-- The per-report motion state: the `x`/`y` fields of the `pen_report`
(16-bit, kept as `Nat` reduced mod 2^16) together with the static local
`direction` of `step`. -/
structure MotionState where
  x : Nat
  y : Nat
  direction : motion_direction
deriving DecidableEq, Repr

/-- Initial state: `report = { .x = 2000, .y = 2000 }` in ep_int_in_loop and
`static enum motion_direction direction = MOTION_RIGHT` in step. -/
def motion_init : MotionState where
  x := 2000
  y := 2000
  direction := MOTION_RIGHT

/-- One call of `step`: BORDER=2000, MAX_X=16000, MAX_Y=9000, STEPSIZE=100;
`__u16` arithmetic is mod 2^16. -/
def step (s : MotionState) : MotionState :=
  match s.direction with
  | MOTION_RIGHT =>
      let x := (s.x + 100) % 65536
      { s with x := x,
               direction := if 16000 - 2000 ≤ x then MOTION_DOWN
                            else s.direction }
  | MOTION_DOWN =>
      let y := (s.y + 100) % 65536
      { s with y := y,
               direction := if 9000 - 2000 ≤ y then MOTION_LEFT
                            else s.direction }
  | MOTION_LEFT =>
      let x := (s.x + 65536 - 100) % 65536
      { s with x := x,
               direction := if x ≤ 2000 then MOTION_UP else s.direction }
  | MOTION_UP =>
      let y := (s.y + 65536 - 100) % 65536
      { s with y := y,
               direction := if y ≤ 2000 then MOTION_RIGHT else s.direction }

/-- The clockwise direction cycle right→down→left→up→right. -/
def nextDirection : motion_direction → motion_direction
  | MOTION_RIGHT => MOTION_DOWN
  | MOTION_DOWN => MOTION_LEFT
  | MOTION_LEFT => MOTION_UP
  | MOTION_UP => MOTION_RIGHT

/-- The first `n` motion states, starting from `s` and applying `step`
once per successive entry. -/
def trajList : Nat → MotionState → List MotionState
  | 0, _ => []
  | n + 1, s => s :: trajList n (step s)

/-- Remove adjacent duplicates, keeping one representative per maximal run:
used to read off the order in which directions are visited. -/
def dedupAdj : List motion_direction → List motion_direction
  | [] => []
  | [a] => [a]
  | a :: b :: rest =>
      if a = b then dedupAdj (b :: rest) else a :: dedupAdj (b :: rest)

/-- Motion state after `n` calls of `step` starting from the initial state. -/
def motionTraj (n : Nat) : MotionState := Nat.iterate step n motion_init

/-- Inductive invariant of the motion state machine: on each leg of the
rectangle the off-axis coordinate is pinned to the leg's edge and the moving
coordinate stays a multiple of 100 strictly inside the range that keeps the
next step in bounds. -/
def MotionInv (s : MotionState) : Prop :=
  match s.direction with
  | MOTION_RIGHT => s.y = 2000 ∧ 2000 ≤ s.x ∧ s.x ≤ 13900 ∧ s.x % 100 = 0
  | MOTION_DOWN  => s.x = 14000 ∧ 2000 ≤ s.y ∧ s.y ≤ 6900 ∧ s.y % 100 = 0
  | MOTION_LEFT  => s.y = 7000 ∧ 2100 ≤ s.x ∧ s.x ≤ 14000 ∧ s.x % 100 = 0
  | MOTION_UP    => s.x = 2000 ∧ 2100 ≤ s.y ∧ s.y ≤ 7000 ∧ s.y % 100 = 0

/-! ### Assignment sequences and sample requests -/

/-- `static int addr = 1;` — the initial value of the process-lifetime
address counter inside assign_ep_address. -/
def initial_addr_counter : Nat := 1

/-- A capability entry that designates "any address" and is compatible with
the interrupt-IN logical endpoint. -/
def anyAddrCompatible (info : usb_raw_ep_info) : Prop :=
  info.addr = USB_RAW_EP_ADDR_ANY ∧
  info.caps.dir_in = true ∧ info.caps.type_int = true

instance (info : usb_raw_ep_info) : Decidable (anyAddrCompatible info) := by
  unfold anyAddrCompatible; infer_instance

/-- Successive `assign_ep_address` calls threading the static counter, each
against a fresh copy of the unassigned logical endpoint `usb_endpoint`. -/
def assignSeq (c : Nat) : List usb_raw_ep_info → List AssignResult × Nat
  | [] => ([], c)
  | info :: rest =>
      match assign_ep_address info usb_endpoint c with
      | .ret true ep' c' =>
          let (rs, cf) := assignSeq c' rest
          (.ret true ep' c' :: rs, cf)
      | .ret false _ _ =>
          let (rs, cf) := assignSeq c rest
          (.ret false usb_endpoint c :: rs, cf)
      | .assertFailed => ([.assertFailed], c)

/-- A capability entry used to instantiate concrete assignment scenarios. -/
def sampleAnyInfo : usb_raw_ep_info where
  addr := USB_RAW_EP_ADDR_ANY
  caps := { type_control := false, type_iso := false, type_bulk := true,
            type_int := true, dir_in := true, dir_out := false }

/-- Read a little-endian 16-bit field at byte offset `i` of a blob. -/
def readLE16 (l : List Nat) (i : Nat) : Nat :=
  l.getD i 0 + 256 * l.getD (i + 1) 0

/-- SET_IDLE as sent to a HID interface: class request, OUT direction. -/
def setIdleCtrl : usb_ctrlrequest where
  bRequestType := 0x21
  bRequest := HID_REQ_SET_IDLE
  wValue := 0
  wIndex := 0
  wLength := 0

/-- SET_CONFIGURATION(1): standard request, OUT direction. -/
def setConfigCtrl : usb_ctrlrequest where
  bRequestType := 0x00
  bRequest := USB_REQ_SET_CONFIGURATION
  wValue := 1
  wIndex := 0
  wLength := 0

/-- Device state after `n` SET_IDLE requests have been dispatched. -/
def setIdleN (n : Nat) : DevState :=
  Nat.iterate (fun s => (ep0_request s setIdleCtrl).2) n initState

/-- GET_DESCRIPTOR(DEVICE) with a given wLength. -/
def getDeviceDescCtrl (wLength : Nat) : usb_ctrlrequest where
  bRequestType := 0x80
  bRequest := USB_REQ_GET_DESCRIPTOR
  wValue := USB_DT_DEVICE * 256
  wIndex := 0
  wLength := wLength

/-! ## Theorems -/

/-- C1: For every control request whose computed response has length `len`,
the length handed to the ep0 transfer equals `min wLength len` — truncated
to `wLength` when the host asks for less, never extended beyond `len`; in
particular GET_DESCRIPTOR(DEVICE) with wLength=18 transfers the full
18-byte device descriptor and with wLength=8 only its first 8 bytes. -/
theorem control_transfer_length_is_min :
    (∀ (s : DevState) (ctrl : usb_ctrlrequest) (data : List Nat) (len : Nat),
        (ep0_request s ctrl).1 = .reply data len →
        (ep0_handle_control s ctrl).1 = .transferred (min ctrl.wLength len)) ∧
    (ep0_request initState (getDeviceDescCtrl 18)).1 =
      .reply (deviceBytes usb_device) (deviceBytes usb_device).length ∧
    (deviceBytes usb_device).length = 18 ∧
    (ep0_handle_control initState (getDeviceDescCtrl 18)).1 = .transferred 18 ∧
    (ep0_handle_control initState (getDeviceDescCtrl 8)).1 = .transferred 8 := by
  refine ⟨?_, by decide, by decide, by decide, by decide⟩
  intro s ctrl data len h
  unfold ep0_handle_control
  rcases heq : ep0_request s ctrl with ⟨o, s'⟩
  rw [heq] at h
  simp only at h
  subst h
  simp only
  congr 1
  split_ifs <;> omega

/-- C1 witness: the general clause instantiated at a concrete request whose
response is the 18-byte device descriptor, asked for with wLength = 8. -/
theorem control_transfer_length_is_min_witness :
    (ep0_handle_control initState (getDeviceDescCtrl 8)).1 =
      .transferred (min (getDeviceDescCtrl 8).wLength
                        (deviceBytes usb_device).length) :=
  control_transfer_length_is_min.1 initState (getDeviceDescCtrl 8)
    (deviceBytes usb_device) (deviceBytes usb_device).length (by decide)

/-- C2: For every caller buffer of at least 34 bytes, `build_config`
assembles the configuration blob, returns total length
config+interface+HID+endpoint = 9+9+9+7, writes exactly that many bytes,
and the little-endian `wTotalLength` field at byte offset 2 of the blob
equals that computed sum — while the static `usb_config` holds 0 there
(the value is computed during assembly, never hand-entered). -/
theorem build_config_wTotalLength_is_sum (ep : usb_endpoint_descriptor)
    (len : Nat) (h : 34 ≤ len) :
    ∃ blob,
      build_config ep len =
        some (blob, USB_DT_CONFIG_SIZE + USB_DT_INTERFACE_SIZE + 9 +
                    USB_DT_ENDPOINT_SIZE) ∧
      blob.length = USB_DT_CONFIG_SIZE + USB_DT_INTERFACE_SIZE + 9 +
                    USB_DT_ENDPOINT_SIZE ∧
      readLE16 blob 2 = USB_DT_CONFIG_SIZE + USB_DT_INTERFACE_SIZE + 9 +
                    USB_DT_ENDPOINT_SIZE ∧
      usb_config.wTotalLength = 0 := by
  refine ⟨configBytes { usb_config with wTotalLength := 34 } ++
          interfaceBytes usb_interface ++ hidBytes usb_hid ++
          endpointBytes ep, ?_, ?_, ?_, rfl⟩
  · unfold build_config USB_DT_CONFIG_SIZE USB_DT_INTERFACE_SIZE
      USB_DT_ENDPOINT_SIZE at *
    rw [if_neg (by omega), if_neg (by omega), if_neg (by omega),
        if_neg (by omega)]
  · simp [configBytes, interfaceBytes, hidBytes, endpointBytes, u8, le16,
          USB_DT_CONFIG_SIZE, USB_DT_INTERFACE_SIZE, USB_DT_ENDPOINT_SIZE]
  · simp [readLE16, configBytes, interfaceBytes, hidBytes, endpointBytes,
          u8, le16, usb_config, usb_interface, usb_hid,
          USB_DT_CONFIG_SIZE, USB_DT_INTERFACE_SIZE, USB_DT_ENDPOINT_SIZE]

/-- C2 witness: `build_config` on the ep0 buffer size used by the
dispatcher (256 bytes) and the program's endpoint descriptor. -/
theorem build_config_wTotalLength_is_sum_witness :
    34 ≤ EP0_MAX_DATA ∧
    ∃ blob,
      build_config usb_endpoint EP0_MAX_DATA =
        some (blob, USB_DT_CONFIG_SIZE + USB_DT_INTERFACE_SIZE + 9 +
                    USB_DT_ENDPOINT_SIZE) ∧
      blob.length = USB_DT_CONFIG_SIZE + USB_DT_INTERFACE_SIZE + 9 +
                    USB_DT_ENDPOINT_SIZE ∧
      readLE16 blob 2 = USB_DT_CONFIG_SIZE + USB_DT_INTERFACE_SIZE + 9 +
                    USB_DT_ENDPOINT_SIZE ∧
      usb_config.wTotalLength = 0 :=
  ⟨by decide, build_config_wTotalLength_is_sum usb_endpoint EP0_MAX_DATA
     (by decide)⟩

/-- C7: Endpoint negotiation is idempotent — on a logical endpoint whose
endpoint number is already nonzero, `assign_ep_address` returns false,
leaves the descriptor unchanged, and does not advance the address
counter. -/
theorem assign_ep_address_skips_assigned (info : usb_raw_ep_info)
    (ep : usb_endpoint_descriptor) (c : Nat)
    (h : usb_endpoint_num ep ≠ 0) :
    assign_ep_address info ep c = .ret false ep c := by
  unfold assign_ep_address
  rw [if_pos h]

/-- C7 witness: an already-assigned endpoint (address 0x81, number 1) is
skipped with the counter left at 5. -/
theorem assign_ep_address_skips_assigned_witness :
    assign_ep_address sampleAnyInfo
      { usb_endpoint with bEndpointAddress := 0x81 } 5 =
      .ret false { usb_endpoint with bEndpointAddress := 0x81 } 5 :=
  assign_ep_address_skips_assigned sampleAnyInfo
    { usb_endpoint with bEndpointAddress := 0x81 } 5 (by decide)

/-- C9: For every defined string id ((0,0) language list; ids 1,2,3 under
language 0x0409) the formatted descriptor is `payload-length + 2`, the
string-descriptor type tag, then the UTF-16 payload; every id ≥ 4 under
language 0x0409 yields the explicit `unsupported` result. -/
theorem string_descriptor_format :
    fill_string_descriptor 0 0 =
      .filled (((u16ArrayBytes languages).length + 2) :: USB_DT_STRING ::
               u16ArrayBytes languages)
              ((u16ArrayBytes languages).length + 2) ∧
    fill_string_descriptor STRING_ID_MANUFACTURER LANG_EN_US =
      .filled (((u16ArrayBytes manufacturer_en_us).length + 2) ::
               USB_DT_STRING :: u16ArrayBytes manufacturer_en_us)
              ((u16ArrayBytes manufacturer_en_us).length + 2) ∧
    fill_string_descriptor STRING_ID_PRODUCT LANG_EN_US =
      .filled (((u16ArrayBytes product_en_us).length + 2) ::
               USB_DT_STRING :: u16ArrayBytes product_en_us)
              ((u16ArrayBytes product_en_us).length + 2) ∧
    fill_string_descriptor STRING_ID_SERIAL LANG_EN_US =
      .filled (((u16ArrayBytes serial_en_us).length + 2) ::
               USB_DT_STRING :: u16ArrayBytes serial_en_us)
              ((u16ArrayBytes serial_en_us).length + 2) ∧
    (∀ id lang, 4 ≤ id → lang = LANG_EN_US →
       fill_string_descriptor id lang = .unsupported) := by
  refine ⟨by decide, by decide, by decide, by decide, ?_⟩
  intro id lang h4 hl
  subst hl
  unfold fill_string_descriptor
  simp only [STRING_ID_MANUFACTURER, STRING_ID_PRODUCT, STRING_ID_SERIAL,
             LANG_EN_US]
  rw [if_neg (by omega), if_neg (by omega), if_neg (by omega),
      if_neg (by omega), if_neg (by omega), if_neg (by omega)]

/-- C9 witness: the unsupported clause instantiated at string id 4. -/
theorem string_descriptor_format_witness :
    fill_string_descriptor 4 LANG_EN_US = .unsupported :=
  string_descriptor_format.2.2.2.2 4 LANG_EN_US (by decide) rfl

/-- Helper: a SET_IDLE dispatched while the generator thread handle is
already nonzero leaves the device state unchanged. -/
lemma set_idle_noop_when_started (s : DevState)
    (h : s.ep_int_in_thread ≠ 0) :
    ep0_request s setIdleCtrl = (.reply [] 0, s) := by
  unfold ep0_request setIdleCtrl
  rw [if_neg (by decide), if_pos (by decide), if_neg (by decide),
      if_pos (by decide), if_neg h]

/-- Helper: a SET_IDLE dispatched while the handle is zero creates the
generator thread (handle becomes nonzero, one creation recorded). -/
lemma set_idle_creates_when_unstarted (s : DevState)
    (h : s.ep_int_in_thread = 0) :
    ep0_request s setIdleCtrl =
      (.reply [] 0, { s with ep_int_in_thread := 1,
                             thread_creations := s.thread_creations + 1 }) := by
  unfold ep0_request setIdleCtrl
  rw [if_neg (by decide), if_pos (by decide), if_neg (by decide),
      if_pos (by decide), if_pos h]

/-- Helper: the device state stops changing after the first SET_IDLE —
every later dispatch leaves it at the state reached after the first. -/
lemma set_idle_stabilizes : ∀ n, setIdleN (n + 1) = setIdleN 1
  | 0 => rfl
  | n + 1 => by
    show (fun s => (ep0_request s setIdleCtrl).2)^[n + 2] initState = _
    rw [Function.iterate_succ_apply']
    show (ep0_request ((fun s => (ep0_request s setIdleCtrl).2)^[n + 1]
            initState) setIdleCtrl).2 = setIdleN 1
    rw [show (fun s => (ep0_request s setIdleCtrl).2)^[n + 1] initState =
          setIdleN (n + 1) from rfl,
        set_idle_stabilizes n,
        set_idle_noop_when_started (setIdleN 1) (by decide)]

/-- C6: SET_IDLE starts the report generator at most once per process
lifetime: dispatches beyond the first leave the device state (and hence the
running generator) unchanged, a SET_IDLE arriving with the thread handle
already nonzero is a guarded no-op, and after any positive number of
dispatches exactly one `pthread_create` has happened. -/
theorem set_idle_starts_generator_once :
    (∀ s : DevState, s.ep_int_in_thread ≠ 0 →
       ep0_request s setIdleCtrl = (.reply [] 0, s)) ∧
    (setIdleN 0).thread_creations = 0 ∧
    (∀ n : Nat, setIdleN (n + 1) = setIdleN 1) ∧
    (setIdleN 1).thread_creations = 1 :=
  ⟨set_idle_noop_when_started, rfl, set_idle_stabilizes, by decide⟩

/-- C6 witness: the no-op clause instantiated at a state whose thread
handle is already nonzero. -/
theorem set_idle_starts_generator_once_witness :
    ep0_request { initState with ep_int_in_thread := 1 } setIdleCtrl =
      (.reply [] 0, { initState with ep_int_in_thread := 1 }) :=
  set_idle_starts_generator_once.1 { initState with ep_int_in_thread := 1 }
    (by decide)

/-- C5 counterexample: handling SET_CONFIGURATION twice issues the
endpoint-enable call twice — the already-enabled endpoint IS re-enabled,
contrary to the claim that the second request does not enable the endpoint
a second time. -/
theorem second_set_configuration_reenables :
    (ep0_request (ep0_request initState setConfigCtrl).2
       setConfigCtrl).2.ep_enable_calls = 2 ∧
    ¬ (ep0_request (ep0_request initState setConfigCtrl).2
         setConfigCtrl).2.ep_enable_calls ≤ 1 := by
  decide

/-- C5 amended: a second SET_CONFIGURATION is handled without fault and
without allocating a second address — both requests are answered normally
(no stall, no exit) but the handler is unguarded, so the endpoint-enable
call is issued once per request (twice in total); address allocation is
untouched because it happens only in `assign_ep_address` on connect, which
skips any endpoint whose number is already nonzero without advancing the
address counter. -/
theorem second_set_configuration_no_double_allocation
    (info : usb_raw_ep_info) (ep : usb_endpoint_descriptor) (c : Nat)
    (h : usb_endpoint_num ep ≠ 0) :
    (ep0_request initState setConfigCtrl).1 = .reply [] 0 ∧
    (ep0_request (ep0_request initState setConfigCtrl).2 setConfigCtrl).1 =
      .reply [] 0 ∧
    (ep0_request (ep0_request initState setConfigCtrl).2
       setConfigCtrl).2.ep_enable_calls = 2 ∧
    assign_ep_address info ep c = .ret false ep c := by
  refine ⟨by decide, by decide, by decide, ?_⟩
  unfold assign_ep_address
  rw [if_pos h]

/-- C5 amended witness: instantiated at the program's endpoint descriptor
after it has been assigned address 1 (number 1, nonzero). -/
theorem second_set_configuration_no_double_allocation_witness :
    (ep0_request initState setConfigCtrl).1 = .reply [] 0 ∧
    (ep0_request (ep0_request initState setConfigCtrl).2 setConfigCtrl).1 =
      .reply [] 0 ∧
    (ep0_request (ep0_request initState setConfigCtrl).2
       setConfigCtrl).2.ep_enable_calls = 2 ∧
    assign_ep_address sampleAnyInfo
      { usb_endpoint with bEndpointAddress := 0x81 } 2 =
      .ret false { usb_endpoint with bEndpointAddress := 0x81 } 2 :=
  second_set_configuration_no_double_allocation sampleAnyInfo
    { usb_endpoint with bEndpointAddress := 0x81 } 2 (by decide)

/-- C4 counterexample: a well-formed GET_DESCRIPTOR for an unsupported
descriptor sub-type (USB_DT_INTERFACE, wValue high byte 4) makes the
dispatcher hit `exit(EXIT_FAILURE)` — the process terminates; it is not
answered with a stall. -/
theorem unsupported_descriptor_subtype_exits :
    (ep0_handle_control initState
       { bRequestType := 0x80, bRequest := USB_REQ_GET_DESCRIPTOR,
         wValue := 0x0400, wIndex := 0, wLength := 64 }).1 = .exited ∧
    (ep0_handle_control initState
       { bRequestType := 0x80, bRequest := USB_REQ_GET_DESCRIPTOR,
         wValue := 0x0400, wIndex := 0, wLength := 64 }).1 ≠ .stalled := by
  decide

/-- C4 amended: the only unrecognized-but-well-formed requests answered
with a stall (after which the event loop continues) are GET_DESCRIPTOR
(STRING) requests with language 0x0409 and a string id outside the defined
set; a GET_DESCRIPTOR for any unsupported descriptor sub-type terminates
the process instead. -/
theorem stall_for_unknown_string_exit_for_unknown_descriptor
    (s : DevState) (ctrl : usb_ctrlrequest)
    (hty : ctrl.bRequestType &&& USB_TYPE_MASK = USB_TYPE_STANDARD)
    (hreq : ctrl.bRequest = USB_REQ_GET_DESCRIPTOR) :
    (ctrl.wValue >>> 8 = USB_DT_STRING → 4 ≤ ctrl.wValue &&& 0xff →
       ctrl.wIndex = LANG_EN_US →
       (ep0_handle_control s ctrl).1 = .stalled) ∧
    (ctrl.wValue >>> 8 ≠ USB_DT_DEVICE →
     ctrl.wValue >>> 8 ≠ USB_DT_DEVICE_QUALIFIER →
     ctrl.wValue >>> 8 ≠ USB_DT_CONFIG →
     ctrl.wValue >>> 8 ≠ USB_DT_STRING →
     ctrl.wValue >>> 8 ≠ HID_DT_REPORT →
       (ep0_handle_control s ctrl).1 = .exited) := by
  constructor
  · intro hdt hid hlang
    have hfill : fill_string_descriptor (ctrl.wValue &&& 0xff) ctrl.wIndex =
        .unsupported := by
      rw [hlang]
      unfold fill_string_descriptor
      rw [if_neg (by unfold LANG_EN_US; omega), if_neg (by omega),
          if_neg (by simp),
          if_neg (by unfold STRING_ID_MANUFACTURER; omega),
          if_neg (by unfold STRING_ID_PRODUCT; omega),
          if_neg (by unfold STRING_ID_SERIAL; omega)]
    unfold ep0_handle_control ep0_request
    rw [if_pos hty, if_pos hreq,
        if_neg (by rw [hdt]; decide), if_neg (by rw [hdt]; decide),
        if_neg (by rw [hdt]; decide), if_pos hdt, hfill]
  · intro h1 h2 h3 h4 h5
    unfold ep0_handle_control ep0_request
    rw [if_pos hty, if_pos hreq,
        if_neg h1, if_neg h2, if_neg h3, if_neg h4, if_neg h5]

/-- C4 amended witness: GET_DESCRIPTOR(STRING) id 255, language 0x0409
stalls; GET_DESCRIPTOR sub-type 4 exits. -/
theorem stall_for_unknown_string_exit_for_unknown_descriptor_witness :
    (ep0_handle_control initState
       { bRequestType := 0x80, bRequest := USB_REQ_GET_DESCRIPTOR,
         wValue := 0x03ff, wIndex := LANG_EN_US, wLength := 64 }).1 =
      .stalled :=
  (stall_for_unknown_string_exit_for_unknown_descriptor initState
      { bRequestType := 0x80, bRequest := USB_REQ_GET_DESCRIPTOR,
        wValue := 0x03ff, wIndex := LANG_EN_US, wLength := 64 }
      (by decide) rfl).1 (by decide) (by decide) rfl

/-- The inductive invariant holds initially. -/
lemma motionInv_init : MotionInv motion_init := by
  dsimp only [MotionInv, motion_init]
  omega

/-- The inductive invariant is preserved by one `step`. -/
lemma motionInv_step (s : MotionState) (h : MotionInv s) :
    MotionInv (step s) := by
  rcases s with ⟨x, y, d⟩
  cases d
  case MOTION_RIGHT =>
    dsimp only [MotionInv] at h
    dsimp only [step]
    have hm : (x + 100) % 65536 = x + 100 :=
      Nat.mod_eq_of_lt (by omega)
    rw [hm]
    split_ifs <;> dsimp only [MotionInv] <;> omega
  case MOTION_DOWN =>
    dsimp only [MotionInv] at h
    dsimp only [step]
    have hm : (y + 100) % 65536 = y + 100 :=
      Nat.mod_eq_of_lt (by omega)
    rw [hm]
    split_ifs <;> dsimp only [MotionInv] <;> omega
  case MOTION_LEFT =>
    dsimp only [MotionInv] at h
    dsimp only [step]
    have e1 : x + 65536 - 100 = (x - 100) + 65536 := by omega
    have hm : ((x - 100) + 65536) % 65536 = x - 100 := by
      rw [Nat.add_mod_right]
      exact Nat.mod_eq_of_lt (by omega)
    rw [e1, hm]
    split_ifs <;> dsimp only [MotionInv] <;> omega
  case MOTION_UP =>
    dsimp only [MotionInv] at h
    dsimp only [step]
    have e1 : y + 65536 - 100 = (y - 100) + 65536 := by omega
    have hm : ((y - 100) + 65536) % 65536 = y - 100 := by
      rw [Nat.add_mod_right]
      exact Nat.mod_eq_of_lt (by omega)
    rw [e1, hm]
    split_ifs <;> dsimp only [MotionInv] <;> omega

/-- The inductive invariant holds at every reachable motion state. -/
lemma motionInv_traj : ∀ n, MotionInv (motionTraj n)
  | 0 => motionInv_init
  | n + 1 => by
    rw [motionTraj, Function.iterate_succ_apply']
    exact motionInv_step _ (motionInv_traj n)

set_option maxRecDepth 100000

/-- C3: starting from (2000, 2000) facing right, the motion state never
leaves the rectangle [2000,14000]×[2000,7000]; each `step` either keeps the
direction or advances it one place clockwise (right→down→left→up→right);
the state is periodic with period 340, and within one full traversal the
run-compressed direction sequence is exactly
right, down, left, up — each direction once. -/
theorem motion_stays_in_rectangle_and_cycles :
    (∀ n : Nat, 2000 ≤ (motionTraj n).x ∧ (motionTraj n).x ≤ 14000 ∧
                2000 ≤ (motionTraj n).y ∧ (motionTraj n).y ≤ 7000) ∧
    (∀ s : MotionState, (step s).direction = s.direction ∨
                        (step s).direction = nextDirection s.direction) ∧
    motionTraj 340 = motion_init ∧
    dedupAdj ((trajList 340 motion_init).map MotionState.direction) =
      [MOTION_RIGHT, MOTION_DOWN, MOTION_LEFT, MOTION_UP] := by
  refine ⟨?_, ?_, by decide, by decide⟩
  · intro n
    have h := motionInv_traj n
    unfold MotionInv at h
    rcases hd : (motionTraj n).direction <;> rw [hd] at h <;>
      dsimp only at h <;> omega
  · intro s
    rcases s with ⟨x, y, d⟩
    cases d <;> dsimp only [step, nextDirection] <;> split_ifs <;> simp

/-- Helper: one successful assignment against an "any address" capability
entry ORs the current counter value into the unassigned logical endpoint
and advances the counter by exactly one. -/
lemma assign_ep_address_any (info : usb_raw_ep_info) (c : Nat)
    (h : anyAddrCompatible info) :
    assign_ep_address info usb_endpoint c =
      .ret true { usb_endpoint with bEndpointAddress := USB_DIR_IN ||| c }
           (c + 1) := by
  obtain ⟨ha, hin, hint⟩ := h
  unfold assign_ep_address assignAddr
  rw [if_neg (by decide), if_neg (by simp [hin]),
      if_neg (by simp [show usb_endpoint_dir_out usb_endpoint = false from
                         by decide]),
      if_neg (by decide), if_pos (by decide), if_neg (by simp [hint]),
      if_pos ha,
      show usb_endpoint.bEndpointAddress = USB_DIR_IN from by decide]

/-- Helper: a run of assignments against all-"any address" compatible
entries consumes consecutive counter values `c, c+1, ...` and leaves the
counter at `c + k`. -/
lemma assignSeq_all_any : ∀ (infos : List usb_raw_ep_info) (c : Nat),
    (∀ info ∈ infos, anyAddrCompatible info) →
    assignSeq c infos =
      ((List.range' c infos.length).map
         (fun a => AssignResult.ret true
            { usb_endpoint with bEndpointAddress := USB_DIR_IN ||| a }
            (a + 1)),
       c + infos.length)
  | [], c, _ => by simp [assignSeq]
  | info :: rest, c, h => by
    have h1 : anyAddrCompatible info := h info (List.mem_cons_self info rest)
    have hrest := assignSeq_all_any rest (c + 1)
      (fun i hi => h i (List.mem_cons_of_mem _ hi))
    simp only [assignSeq, assign_ep_address_any info c h1, hrest,
               List.length_cons, List.range'_succ, List.map_cons,
               Prod.mk.injEq]
    exact ⟨trivial, by omega⟩

/-- C8: within one process lifetime, successive successful assignments
against "any address" capability entries receive consecutive addresses:
starting the static counter at its initial value 1, the n-th assignment
ORs counter value n into the endpoint (so its endpoint number becomes n),
and the counter advances by exactly 1 each time; a capability entry with a
fixed address instead contributes that controller-specified address and
leaves the counter untouched. -/
theorem any_address_assignments_are_sequential :
    (∀ (c : Nat) (infos : List usb_raw_ep_info),
       (∀ info ∈ infos, anyAddrCompatible info) →
       assignSeq c infos =
         ((List.range' c infos.length).map
            (fun a => AssignResult.ret true
               { usb_endpoint with bEndpointAddress := USB_DIR_IN ||| a }
               (a + 1)),
          c + infos.length)) ∧
    initial_addr_counter = 1 ∧
    (∀ n : Nat, n < 16 →
       usb_endpoint_num
         { usb_endpoint with bEndpointAddress := USB_DIR_IN ||| n } = n) ∧
    (∀ (info : usb_raw_ep_info) (c : Nat),
       info.addr ≠ USB_RAW_EP_ADDR_ANY →
       info.caps.dir_in = true → info.caps.type_int = true →
       assign_ep_address info usb_endpoint c =
         .ret true { usb_endpoint with
                     bEndpointAddress := USB_DIR_IN ||| info.addr } c) := by
  refine ⟨fun c infos h => assignSeq_all_any infos c h, rfl, ?_, ?_⟩
  · intro n hn
    interval_cases n <;> decide
  · intro info c ha hin hint
    unfold assign_ep_address assignAddr
    rw [if_neg (by decide), if_neg (by simp [hin]),
        if_neg (by simp [show usb_endpoint_dir_out usb_endpoint = false from
                           by decide]),
        if_neg (by decide), if_pos (by decide), if_neg (by simp [hint]),
        if_neg ha,
        show usb_endpoint.bEndpointAddress = USB_DIR_IN from by decide]

/-- C8 witness: three any-address assignments from the initial counter
consume addresses 1, 2, 3; address number 3 reads back as 3; a fixed
address 5 is used verbatim with the counter left at 7. -/
theorem any_address_assignments_are_sequential_witness :
    assignSeq initial_addr_counter [sampleAnyInfo, sampleAnyInfo,
                                    sampleAnyInfo] =
      ((List.range' initial_addr_counter 3).map
         (fun a => AssignResult.ret true
            { usb_endpoint with bEndpointAddress := USB_DIR_IN ||| a }
            (a + 1)),
       initial_addr_counter + 3) ∧
    usb_endpoint_num { usb_endpoint with
                       bEndpointAddress := USB_DIR_IN ||| 3 } = 3 ∧
    assign_ep_address { addr := 5, caps := sampleAnyInfo.caps }
        usb_endpoint 7 =
      .ret true { usb_endpoint with bEndpointAddress := USB_DIR_IN ||| 5 }
           7 :=
  ⟨any_address_assignments_are_sequential.1 initial_addr_counter _
     (by decide),
   any_address_assignments_are_sequential.2.2.1 3 (by decide),
   any_address_assignments_are_sequential.2.2.2
     { addr := 5, caps := sampleAnyInfo.caps } 7 (by decide) rfl rfl⟩

/-- Helper: `fill_string_descriptor` reports "unsupported" exactly for ids
outside the defined set under the supported language. -/
lemma fill_unsupported_iff (id lang : Nat) :
    fill_string_descriptor id lang = .unsupported ↔
      4 ≤ id ∧ lang = LANG_EN_US := by
  unfold fill_string_descriptor mkStringDescriptor
  split_ifs with h1 h2 h3 h4 h5 h6 <;>
    simp_all [STRING_ID_MANUFACTURER, STRING_ID_PRODUCT, STRING_ID_SERIAL,
              LANG_EN_US] <;> omega

/-- Helper: `fill_string_descriptor` trips an assert exactly for the
(id, language) pairings outside both the language-list case and the
asserted id>0 ∧ lang=0x0409 precondition. -/
lemma fill_assert_iff (id lang : Nat) :
    fill_string_descriptor id lang = .assertFailed ↔
      ¬(id = 0 ∧ lang = 0) ∧ (id = 0 ∨ lang ≠ LANG_EN_US) := by
  unfold fill_string_descriptor mkStringDescriptor
  split_ifs with h1 h2 h3 h4 h5 h6 <;>
    simp_all [STRING_ID_MANUFACTURER, STRING_ID_PRODUCT, STRING_ID_SERIAL,
              LANG_EN_US] <;> omega

/-- Helper: the dispatcher returns the stall outcome exactly for
GET_DESCRIPTOR(STRING) with an out-of-catalog id under language 0x0409. -/
lemma ep0_request_stall_iff (s : DevState) (ctrl : usb_ctrlrequest) :
    (ep0_request s ctrl).1 = .stall ↔
      (ctrl.bRequestType &&& USB_TYPE_MASK = USB_TYPE_STANDARD ∧
       ctrl.bRequest = USB_REQ_GET_DESCRIPTOR ∧
       ctrl.wValue >>> 8 = USB_DT_STRING ∧
       4 ≤ ctrl.wValue &&& 0xff ∧
       ctrl.wIndex = LANG_EN_US) := by
  unfold ep0_request
  split_ifs with h1 h2 h3 h4 h5 h6 h7 h8 h9 h10 h11 h12 h13 <;>
    simp_all [build_config, EP0_MAX_DATA, USB_DT_CONFIG_SIZE,
              USB_DT_INTERFACE_SIZE, USB_DT_ENDPOINT_SIZE,
              USB_TYPE_MASK, USB_TYPE_STANDARD, USB_TYPE_CLASS,
              USB_TYPE_VENDOR, USB_REQ_GET_DESCRIPTOR,
              USB_REQ_SET_CONFIGURATION, USB_REQ_GET_INTERFACE,
              USB_DT_DEVICE, USB_DT_DEVICE_QUALIFIER, USB_DT_CONFIG,
              USB_DT_STRING, HID_DT_REPORT, HID_REQ_SET_REPORT,
              HID_REQ_SET_IDLE, HID_REQ_SET_PROTOCOL, LANG_EN_US]
  have hiff := fill_unsupported_iff (ctrl.wValue &&& 255) ctrl.wIndex
  rcases hfill : fill_string_descriptor (ctrl.wValue &&& 255) ctrl.wIndex
      with ⟨d, l⟩ | _ | _ <;>
    rw [hfill] at hiff <;> simp_all [LANG_EN_US]

/-- Helper: every unrecognized request shape other than the unknown-string
one reaches the `exit(EXIT_FAILURE)` arms of the dispatcher. -/
lemma ep0_fatal_cases (s : DevState) (ctrl : usb_ctrlrequest) :
    (ctrl.bRequestType &&& USB_TYPE_MASK = USB_TYPE_STANDARD →
     ctrl.bRequest ≠ USB_REQ_GET_DESCRIPTOR →
     ctrl.bRequest ≠ USB_REQ_SET_CONFIGURATION →
     ctrl.bRequest ≠ USB_REQ_GET_INTERFACE →
       (ep0_request s ctrl).1 = .fatal) ∧
    (ctrl.bRequestType &&& USB_TYPE_MASK = USB_TYPE_STANDARD →
     ctrl.bRequest = USB_REQ_GET_DESCRIPTOR →
     ctrl.wValue >>> 8 ≠ USB_DT_DEVICE →
     ctrl.wValue >>> 8 ≠ USB_DT_DEVICE_QUALIFIER →
     ctrl.wValue >>> 8 ≠ USB_DT_CONFIG →
     ctrl.wValue >>> 8 ≠ USB_DT_STRING →
     ctrl.wValue >>> 8 ≠ HID_DT_REPORT →
       (ep0_request s ctrl).1 = .fatal) ∧
    (ctrl.bRequestType &&& USB_TYPE_MASK = USB_TYPE_CLASS →
     ctrl.bRequest ≠ HID_REQ_SET_REPORT →
     ctrl.bRequest ≠ HID_REQ_SET_IDLE →
     ctrl.bRequest ≠ HID_REQ_SET_PROTOCOL →
       (ep0_request s ctrl).1 = .fatal) ∧
    (ctrl.bRequestType &&& USB_TYPE_MASK ≠ USB_TYPE_STANDARD →
     ctrl.bRequestType &&& USB_TYPE_MASK ≠ USB_TYPE_CLASS →
       (ep0_request s ctrl).1 = .fatal) := by
  refine ⟨?_, ?_, ?_, ?_⟩
  · intro h1 h2 h3 h4
    unfold ep0_request
    rw [if_pos h1, if_neg h2, if_neg h3, if_neg h4]
  · intro h1 h2 h3 h4 h5 h6 h7
    unfold ep0_request
    rw [if_pos h1, if_pos h2, if_neg h3, if_neg h4, if_neg h5, if_neg h6,
        if_neg h7]
  · intro h1 h2 h3 h4
    unfold ep0_request
    rw [if_neg (by rw [h1]; decide), if_pos h1, if_neg h2, if_neg h3,
        if_neg h4]
  · intro h1 h2
    unfold ep0_request
    rw [if_neg h1, if_neg h2]
    split_ifs <;> rfl

/-- Helper: a GET_DESCRIPTOR(STRING) whose (id, language) pairing is
neither the language-list request nor a proper 0x0409 lookup trips an
internal assert. -/
lemma ep0_string_assert (s : DevState) (ctrl : usb_ctrlrequest)
    (h1 : ctrl.bRequestType &&& USB_TYPE_MASK = USB_TYPE_STANDARD)
    (h2 : ctrl.bRequest = USB_REQ_GET_DESCRIPTOR)
    (h3 : ctrl.wValue >>> 8 = USB_DT_STRING)
    (h4 : ¬(ctrl.wValue &&& 0xff = 0 ∧ ctrl.wIndex = 0))
    (h5 : ctrl.wValue &&& 0xff = 0 ∨ ctrl.wIndex ≠ LANG_EN_US) :
    (ep0_request s ctrl).1 = .assertFailed := by
  have hfill : fill_string_descriptor (ctrl.wValue &&& 0xff) ctrl.wIndex =
      .assertFailed := (fill_assert_iff _ _).mpr ⟨h4, h5⟩
  unfold ep0_request
  rw [if_pos h1, if_pos h2,
      if_neg (by rw [h3]; decide), if_neg (by rw [h3]; decide),
      if_neg (by rw [h3]; decide), if_pos h3, hfill]

/-- C10: the stall outcome is reachable through exactly one request shape
— standard GET_DESCRIPTOR(STRING) with language 0x0409 and a string id
outside the defined set (id ≥ 4, i.e. nonzero and not 1, 2 or 3) — after
which the loop continues; every other unrecognized request (unknown
standard request code, unknown GET_DESCRIPTOR sub-type, unknown class
request, any vendor request, unknown request-type class) terminates the
process; and a string request with any other (id, language) pairing fails
an internal assertion. -/
theorem dispatcher_stall_reachability :
    (∀ (s : DevState) (ctrl : usb_ctrlrequest),
       (ep0_request s ctrl).1 = .stall ↔
         (ctrl.bRequestType &&& USB_TYPE_MASK = USB_TYPE_STANDARD ∧
          ctrl.bRequest = USB_REQ_GET_DESCRIPTOR ∧
          ctrl.wValue >>> 8 = USB_DT_STRING ∧
          4 ≤ ctrl.wValue &&& 0xff ∧
          ctrl.wIndex = LANG_EN_US)) ∧
    (∀ (s : DevState) (ctrl : usb_ctrlrequest),
       (ep0_request s ctrl).1 = .stall →
       (ep0_handle_control s ctrl).1 = .stalled) ∧
    (∀ (s : DevState) (ctrl : usb_ctrlrequest),
       (ctrl.bRequestType &&& USB_TYPE_MASK = USB_TYPE_STANDARD →
        ctrl.bRequest ≠ USB_REQ_GET_DESCRIPTOR →
        ctrl.bRequest ≠ USB_REQ_SET_CONFIGURATION →
        ctrl.bRequest ≠ USB_REQ_GET_INTERFACE →
          (ep0_request s ctrl).1 = .fatal) ∧
       (ctrl.bRequestType &&& USB_TYPE_MASK = USB_TYPE_STANDARD →
        ctrl.bRequest = USB_REQ_GET_DESCRIPTOR →
        ctrl.wValue >>> 8 ≠ USB_DT_DEVICE →
        ctrl.wValue >>> 8 ≠ USB_DT_DEVICE_QUALIFIER →
        ctrl.wValue >>> 8 ≠ USB_DT_CONFIG →
        ctrl.wValue >>> 8 ≠ USB_DT_STRING →
        ctrl.wValue >>> 8 ≠ HID_DT_REPORT →
          (ep0_request s ctrl).1 = .fatal) ∧
       (ctrl.bRequestType &&& USB_TYPE_MASK = USB_TYPE_CLASS →
        ctrl.bRequest ≠ HID_REQ_SET_REPORT →
        ctrl.bRequest ≠ HID_REQ_SET_IDLE →
        ctrl.bRequest ≠ HID_REQ_SET_PROTOCOL →
          (ep0_request s ctrl).1 = .fatal) ∧
       (ctrl.bRequestType &&& USB_TYPE_MASK ≠ USB_TYPE_STANDARD →
        ctrl.bRequestType &&& USB_TYPE_MASK ≠ USB_TYPE_CLASS →
          (ep0_request s ctrl).1 = .fatal)) ∧
    (∀ (s : DevState) (ctrl : usb_ctrlrequest),
       ctrl.bRequestType &&& USB_TYPE_MASK = USB_TYPE_STANDARD →
       ctrl.bRequest = USB_REQ_GET_DESCRIPTOR →
       ctrl.wValue >>> 8 = USB_DT_STRING →
       ¬(ctrl.wValue &&& 0xff = 0 ∧ ctrl.wIndex = 0) →
       (ctrl.wValue &&& 0xff = 0 ∨ ctrl.wIndex ≠ LANG_EN_US) →
       (ep0_request s ctrl).1 = .assertFailed) := by
  refine ⟨ep0_request_stall_iff, ?_, ep0_fatal_cases, ep0_string_assert⟩
  intro s ctrl h
  unfold ep0_handle_control
  rcases heq : ep0_request s ctrl with ⟨o, s2⟩
  rw [heq] at h
  simp only at h
  subst h
  rfl

/-- C10 witness: the classification instantiated at concrete requests —
string id 5 under language 0x0409 stalls and the loop continues; a vendor
request is fatal; string id 0 with language 1 trips the assert. -/
theorem dispatcher_stall_reachability_witness :
    (ep0_request initState
       { bRequestType := 0x80, bRequest := USB_REQ_GET_DESCRIPTOR,
         wValue := 0x0305, wIndex := LANG_EN_US, wLength := 64 }).1 =
      .stall ∧
    (ep0_handle_control initState
       { bRequestType := 0x80, bRequest := USB_REQ_GET_DESCRIPTOR,
         wValue := 0x0305, wIndex := LANG_EN_US, wLength := 64 }).1 =
      .stalled ∧
    (ep0_request initState
       { bRequestType := 0xc0, bRequest := 0x01, wValue := 0,
         wIndex := 0, wLength := 0 }).1 = .fatal ∧
    (ep0_request initState
       { bRequestType := 0x80, bRequest := USB_REQ_GET_DESCRIPTOR,
         wValue := 0x0300, wIndex := 1, wLength := 64 }).1 =
      .assertFailed :=
  ⟨(dispatcher_stall_reachability.1 initState _).mpr (by decide),
   dispatcher_stall_reachability.2.1 initState _
     ((dispatcher_stall_reachability.1 initState _).mpr (by decide)),
   (dispatcher_stall_reachability.2.2.1 initState _).2.2.2
     (by decide) (by decide),
   dispatcher_stall_reachability.2.2.2 initState _
     (by decide) rfl (by decide) (by decide) (by decide)⟩

end Tablet
